import Mathlib

/-!
Shallow embedding of `src/app.py` — the CheckDroid gateway to the "121"
case-management registry.

The network is abstracted as an oracle: each modelled operation receives the
response(s) the `requests` library would have produced.  A response is either
a transport-level exception (`exn`) or a decoded payload with an HTTP status.
All other behavior (validation order, Python truthiness, permission
filtering, pagination, the two-phase update) is translated line by line from
`app.py`.
-/

/-- The four permissions a program must all grant
(`REQUIRED_PERMISSIONS`, app.py lines 17-22). -/
def REQUIRED_PERMISSIONS : List String :=
  ["registration:attribute.update",
   "registration:attribute:financial.update",
   "registration:personal.update",
   "registration:status:markAsValidated.update"]

/-- Remove leading and trailing whitespace from a character list. -/
def pyStripChars (l : List Char) : List Char :=
  ((l.dropWhile Char.isWhitespace).reverse.dropWhile Char.isWhitespace).reverse

/-- Python `str.strip()`: remove leading and trailing whitespace. -/
def pyStrip (s : String) : String :=
  String.mk (pyStripChars s.data)

/-- Python `int(s)` on a string: optional surrounding whitespace, optional
sign, then at least one decimal digit; anything else raises `ValueError`,
modelled as `none` (app.py lines 92-96 catch the `ValueError`). -/
def pyParseInt (s : String) : Option Int :=
  let t := pyStripChars s.data
  let signed : Bool × List Char :=
    match t with
    | '-' :: rest => (true, rest)
    | '+' :: rest => (false, rest)
    | _ => (false, t)
  let core := signed.2
  if core ≠ [] ∧ core.all Char.isDigit then
    let mag : Nat := core.foldl (fun acc c => acc * 10 + (c.toNat - 48)) 0
    if signed.1 then some (-(mag : Int)) else some (mag : Int)
  else none

/-- The permission-filtering loop of `login_121` (app.py lines 86-96).
The permission map is the `permissions` object of the login body, in
iteration order: keys are strings, values are either a JSON list of
permission strings or null (`perm_list or []` maps null to the empty list,
modelled by `Option.getD []`).  A program id is appended when its permission
list contains every required permission; keys that do not parse as integers
are skipped (`except ValueError: continue`). -/
def allowedProgramIds : List (String × Option (List String)) → List Int
  | [] => []
  | (pidStr, permList) :: rest =>
    let perms := permList.getD []
    if REQUIRED_PERMISSIONS.all (fun req => perms.contains req) then
      match pyParseInt pidStr with
      | some n => n :: allowedProgramIds rest
      | none => allowedProgramIds rest
    else allowedProgramIds rest

/-- What `requests.post` produced for the login call: a transport exception,
or a response with a status code and (for 201 responses) the decoded body —
`access_token_general` and the per-program `permissions` map.
(`data.get("permissions", \x7b\x7d) or \x7b\x7d` maps an absent or null
permissions object to the empty map, so the map is modelled directly as a
list of entries.) -/
inductive LoginResp
  | exn
  | resp (status : Nat) (token : Option String)
      (permissions : List (String × Option (List String)))
deriving DecidableEq

/-- The distinct human-readable error messages `login_121` can return
(app.py lines 62-104), one constructor per message. -/
inductive LoginError
  | notConfigured
  | unreachable
  | invalidCredentials
  | loginRejected (status : Nat)
  | noAuthorizedPrograms
deriving DecidableEq

/-- Model of `login_121(base_url, username, password, verify_tls)` (app.py lines
53-106).  The credentials only form the transmitted payload; the registry's
reply is abstracted as the `resp` oracle.  Returns the Python triple
`(token, program_ids, error_message)`. -/
def login121 (baseUrl : String) (resp : LoginResp) :
    Option String × List Int × Option LoginError :=
  if baseUrl = "" then (none, [], some .notConfigured)
  else
    match resp with
    | .exn => (none, [], some .unreachable)
    | .resp status token perms =>
      if status = 400 ∨ status = 401 then (none, [], some .invalidCredentials)
      else if status ≠ 201 then (none, [], some (.loginRejected status))
      else
        let allowed := allowedProgramIds perms
        if allowed = [] then (none, [], some .noAuthorizedPrograms)
        else (token, allowed, none)

theorem allowedProgramIds_mem (m : List (String × Option (List String)))
    (n : Int) :
    n ∈ allowedProgramIds m ↔
      ∃ p ∈ m, pyParseInt p.1 = some n ∧
        ∀ r ∈ REQUIRED_PERMISSIONS, r ∈ p.2.getD [] := by
  induction m with
  | nil => simp [allowedProgramIds]
  | cons hd tl ih =>
    obtain ⟨k, v⟩ := hd
    by_cases hall : REQUIRED_PERMISSIONS.all (fun req => (v.getD []).contains req) = true
    · have hall' : ∀ r ∈ REQUIRED_PERMISSIONS, r ∈ v.getD [] := by
        intro r hr
        have := List.all_eq_true.mp hall r hr
        simpa using this
      cases hp : pyParseInt k with
      | none =>
        simp only [allowedProgramIds, hall, if_true, hp]
        rw [ih]
        constructor
        · rintro ⟨p, hpm, hpn⟩; exact ⟨p, List.mem_cons_of_mem _ hpm, hpn⟩
        · rintro ⟨p, hpm, hpn⟩
          rcases List.mem_cons.mp hpm with h | h
          · exfalso; rw [h] at hpn; rw [hp] at hpn; exact Option.noConfusion hpn.1
          · exact ⟨p, h, hpn⟩
      | some n0 =>
        simp only [allowedProgramIds, hall, if_true, hp]
        rw [List.mem_cons, ih]
        constructor
        · rintro (h | ⟨p, hpm, hpn⟩)
          · exact ⟨(k, v), List.mem_cons_self _ _, by rw [hp, h], hall'⟩
          · exact ⟨p, List.mem_cons_of_mem _ hpm, hpn⟩
        · rintro ⟨p, hpm, hpp, hps⟩
          rcases List.mem_cons.mp hpm with h | h
          · left; rw [h] at hpp; rw [hp] at hpp
            exact (Option.some.injEq _ _ ▸ hpp).symm
          · right; exact ⟨p, h, hpp, hps⟩
    · have hall' : ¬ ∀ r ∈ REQUIRED_PERMISSIONS, r ∈ v.getD [] := by
        intro hc
        apply hall
        refine List.all_eq_true.mpr ?_
        intro r hr
        simpa using hc r hr
      have hfalse : REQUIRED_PERMISSIONS.all (fun req => (v.getD []).contains req) = false :=
        Bool.eq_false_iff.mpr hall
      simp only [allowedProgramIds, hfalse, Bool.false_eq_true, if_false]
      rw [ih]
      constructor
      · rintro ⟨p, hpm, hpn⟩; exact ⟨p, List.mem_cons_of_mem _ hpm, hpn⟩
      · rintro ⟨p, hpm, hpp, hps⟩
        rcases List.mem_cons.mp hpm with h | h
        · exfalso; rw [h] at hps; exact hall' hps
        · exact ⟨p, h, hpp, hps⟩

/-- Claim C1: a program id appears in the authorized-program list computed at
login if and only if some entry of the permission map has that id as its key
and a permission list containing every required permission; an entry whose
permission list is absent (null) or empty can never satisfy the
required-permission predicate, hence is excluded. -/
theorem authorized_iff_superset (m : List (String × Option (List String)))
    (n : Int) :
    (n ∈ allowedProgramIds m ↔
      ∃ p ∈ m, pyParseInt p.1 = some n ∧
        ∀ r ∈ REQUIRED_PERMISSIONS, r ∈ p.2.getD []) ∧
    (∀ p : String × Option (List String), p.2 = none ∨ p.2 = some [] →
      ¬ ∀ r ∈ REQUIRED_PERMISSIONS, r ∈ p.2.getD []) := by
  refine ⟨allowedProgramIds_mem m n, ?_⟩
  rintro p (h | h) hc <;> rw [h] at hc <;>
    simpa using hc "registration:attribute.update" (by simp [REQUIRED_PERMISSIONS])

/-- Claim C2: on a 201 login response whose permission map authorizes no
program, `login_121` returns the no-authorized-programs error and a `none`
token, even though the registry issued a token. -/
theorem login_no_authorized_programs (baseUrl tok : String)
    (m : List (String × Option (List String)))
    (hb : baseUrl ≠ "") (hm : allowedProgramIds m = []) :
    login121 baseUrl (.resp 201 (some tok) m) =
      (none, [], some .noAuthorizedPrograms) := by
  simp [login121, hb, hm]

/-- Witness for C2 at a concrete input: every program's permission list is
empty or null, so no token is exposed. -/
theorem login_no_authorized_programs_witness :
    login121 "https://demo.121.example" (.resp 201 (some "tok-1")
        [("1", some []), ("2", none)]) =
      (none, [], some .noAuthorizedPrograms) :=
  login_no_authorized_programs "https://demo.121.example" "tok-1"
    [("1", some []), ("2", none)] (by decide) (by decide)

/-- Claim C10: a permission-map key that does not parse as an integer is
silently skipped — the entry contributes nothing to the authorized list and
causes no error, even when its permission list is complete. -/
theorem nonint_key_skipped (k : String) (v : Option (List String))
    (m : List (String × Option (List String))) (hk : pyParseInt k = none) :
    allowedProgramIds ((k, v) :: m) = allowedProgramIds m := by
  simp only [allowedProgramIds, hk]
  split <;> rfl

/-- Witness for C10 at a concrete input: the key "abc" carries the full
required-permission set yet is skipped. -/
theorem nonint_key_skipped_witness :
    pyParseInt "abc" = none ∧
    allowedProgramIds
        [("abc", some REQUIRED_PERMISSIONS), ("7", some REQUIRED_PERMISSIONS)] =
      allowedProgramIds [("7", some REQUIRED_PERMISSIONS)] :=
  ⟨by decide, nonint_key_skipped "abc" (some REQUIRED_PERMISSIONS)
    [("7", some REQUIRED_PERMISSIONS)] (by decide)⟩

/-- A JSON field value inside an update map; `vnull` is JSON null
(filtered out by `api_registration_update`, app.py lines 465-469). -/
inductive JVal
  | vnull
  | vstr (s : String)
  | vint (n : Int)
  | vbool (b : Bool)
deriving DecidableEq

/-- What one `requests.patch` call produced: a transport exception, or a
response with its HTTP status code and body (the body is carried opaquely;
the json-vs-text decoding of the debug logging does not affect control
flow beyond the returned details). -/
inductive HResp
  | exn
  | resp (status : Nat) (body : String)
deriving DecidableEq

/-- The registry's replies to the (at most) two calls an update-workflow
invocation can issue. -/
structure UpdOracle where
  patchResp : HResp
  statusResp : HResp
deriving DecidableEq

/-- The caller's Flask session as the update endpoints read it:
`session.get("token121")` and `session.get("program_ids", [])`. -/
structure SessionCtx where
  token121 : Option String
  programIds : List Int
deriving DecidableEq

/-- The loaded configuration: `cfg.get("url121", "")` (already stripped of a
trailing slash) and `VERIFY_TLS`. -/
structure SysConfig where
  url121 : String
  verifyTls : Bool
deriving DecidableEq

/-- The JSON body of an update request as the endpoints read it:
`programId` (absent modelled as `none`; the data model fixes it to an
integer), `referenceId` (absent and empty string are both falsy, modelled
as `""`), `updates` (`payload.get("updates") or` the empty map, in
insertion order) and `reason` (absent modelled as `""`). -/
structure UpdPayload where
  programId : Option Int
  referenceId : String
  updates : List (String × JVal)
  reason : String
deriving DecidableEq

/-- A network call issued by an update endpoint, recording what is
transmitted: the field-patch call carries the data map and the optional
reason of its JSON body; the status-patch call carries the program and the
referenceId of its filter.  (URL percent-encoding of the referenceId is
abstracted.) -/
inductive CallRec
  | fieldPatch (programId : Int) (referenceId : String)
      (data : List (String × JVal)) (reason : Option String)
  | statusPatch (programId : Int) (referenceId : String)
deriving DecidableEq

/-- The distinct JSON results an update endpoint can return, one
constructor per `return jsonify(...)` site shape. -/
inductive UpdResult
  | missingFields
  | reasonRequired
  | forbidden
  | configMissing
  | patchUnreachable
  | patchFailed (status : Nat) (body : String)
  | statusUnreachable
  | validationFailed (status : Nat) (body : String)
  | okResult
deriving DecidableEq

/-- Model of `api_registration_update` (app.py lines 394-554): validation, the
authorization gate, the always-attempted field patch (nulls dropped, reason
included only when non-blank, success = 200/204), then the status patch
(success = 200/204 — note: 202 is NOT accepted here).  Returns the endpoint
result together with the list of network calls issued, in order. -/
def apiRegistrationUpdate (cfg : SysConfig) (sess : SessionCtx)
    (orc : UpdOracle) (pl : UpdPayload) : UpdResult × List CallRec :=
  let reason := pyStrip pl.reason
  match pl.programId with
  | none => (.missingFields, [])
  | some n =>
    if n = 0 ∨ pl.referenceId = "" then (.missingFields, [])
    else if n ∉ sess.programIds then (.forbidden, [])
    else if cfg.url121 = "" ∨ sess.token121 = none then (.configMissing, [])
    else
      let dataUpdates := pl.updates.filter (fun kv => kv.2 ≠ .vnull)
      let reasonOpt := if reason = "" then none else some reason
      let call1 := CallRec.fieldPatch n pl.referenceId dataUpdates reasonOpt
      match orc.patchResp with
      | .exn => (.patchUnreachable, [call1])
      | .resp s1 b1 =>
        if s1 ≠ 200 ∧ s1 ≠ 204 then (.patchFailed s1 b1, [call1])
        else
          let call2 := CallRec.statusPatch n pl.referenceId
          match orc.statusResp with
          | .exn => (.statusUnreachable, [call1, call2])
          | .resp s2 b2 =>
            if s2 ≠ 200 ∧ s2 ≠ 204 then (.validationFailed s2 b2, [call1, call2])
            else (.okResult, [call1, call2])

/-- Model of `api_registration_confirm` (app.py lines 579-703): same shape, but the
reason is mandatory (rejected before the authorization gate), the field
patch is issued only when `updates` is non-empty and transmits the update
map unchanged with the reason always attached, and the status patch accepts
200, 202 or 204. -/
def apiRegistrationConfirm (cfg : SysConfig) (sess : SessionCtx)
    (orc : UpdOracle) (pl : UpdPayload) : UpdResult × List CallRec :=
  let reason := pyStrip pl.reason
  match pl.programId with
  | none => (.missingFields, [])
  | some n =>
    if n = 0 ∨ pl.referenceId = "" then (.missingFields, [])
    else if reason = "" then (.reasonRequired, [])
    else if n ∉ sess.programIds then (.forbidden, [])
    else if cfg.url121 = "" ∨ sess.token121 = none then (.configMissing, [])
    else
      let phase2 : List CallRec → UpdResult × List CallRec := fun calls =>
        let call2 := CallRec.statusPatch n pl.referenceId
        match orc.statusResp with
        | .exn => (.statusUnreachable, calls ++ [call2])
        | .resp s2 b2 =>
          if s2 ≠ 200 ∧ s2 ≠ 202 ∧ s2 ≠ 204 then
            (.validationFailed s2 b2, calls ++ [call2])
          else (.okResult, calls ++ [call2])
      if pl.updates = [] then phase2 []
      else
        let call1 := CallRec.fieldPatch n pl.referenceId pl.updates (some reason)
        match orc.patchResp with
        | .exn => (.patchUnreachable, [call1])
        | .resp s1 b1 =>
          if s1 ≠ 200 ∧ s1 ≠ 204 then (.patchFailed s1 b1, [call1])
          else phase2 [call1]

/-- Claim C3 (amended): a request that passes basic body validation (nonzero
integer programId, non-empty referenceId, and — for the confirm endpoint —
a non-blank reason) whose programId is not in the session's authorized set
fails with the forbidden result and issues zero network calls. -/
theorem forbidden_no_calls (cfg : SysConfig) (sess : SessionCtx)
    (orc : UpdOracle) (pl : UpdPayload) (n : Int)
    (hpid : pl.programId = some n) (hn : n ≠ 0) (href : pl.referenceId ≠ "")
    (hmem : n ∉ sess.programIds) :
    apiRegistrationUpdate cfg sess orc pl = (.forbidden, []) ∧
    (pyStrip pl.reason ≠ "" →
      apiRegistrationConfirm cfg sess orc pl = (.forbidden, [])) := by
  constructor
  · simp [apiRegistrationUpdate, hpid, hn, href, hmem]
  · intro hr
    simp [apiRegistrationConfirm, hpid, hn, href, hmem, hr]

/-- Witness for C3 (amended) at a concrete input: program 5 is not in the
authorized set [1, 2]. -/
theorem forbidden_no_calls_witness :
    apiRegistrationUpdate ⟨"https://x", true⟩ ⟨some "t", [1, 2]⟩
        ⟨.resp 200 "", .resp 200 ""⟩ ⟨some 5, "ref-1", [], "because"⟩ =
      (.forbidden, []) :=
  (forbidden_no_calls ⟨"https://x", true⟩ ⟨some "t", [1, 2]⟩
    ⟨.resp 200 "", .resp 200 ""⟩ ⟨some 5, "ref-1", [], "because"⟩ 5
    rfl (by decide) (by decide) (by decide)).1

/-- Counterexample to claim C3 as stated: an update request with programId 0
(an integer not in the authorized set [1]) is rejected by the
missing-fields check — Python `not program_id` is true for 0 — before the
authorization gate, so the outcome is not the forbidden result (it still
issues zero network calls). -/
theorem forbidden_counterexample :
    (0 : Int) ∉ [(1 : Int)] ∧
    apiRegistrationUpdate ⟨"https://x", true⟩ ⟨some "t", [1]⟩
        ⟨.resp 200 "", .resp 200 ""⟩ ⟨some 0, "ref-1", [], "because"⟩ =
      (.missingFields, []) ∧
    UpdResult.missingFields ≠ .forbidden :=
  ⟨by decide, by decide, by decide⟩

/-- Claim C4 (amended): once the status-transition call is reached, the
confirm endpoint treats 200, 202 and 204 as success and any other status as
a validation failure carrying status and body; the update endpoint treats
only 200 and 204 as success — any other status there, including 202, is a
validation failure carrying status and body. -/
theorem status_transition_codes (cfg : SysConfig) (sess : SessionCtx)
    (orc : UpdOracle) (pl : UpdPayload) (n : Int) (s1 : Nat) (b1 : String)
    (s2 : Nat) (b2 : String)
    (hpid : pl.programId = some n) (hn : n ≠ 0) (href : pl.referenceId ≠ "")
    (hmem : n ∈ sess.programIds) (hurl : cfg.url121 ≠ "")
    (htok : sess.token121 ≠ none)
    (hp : orc.patchResp = .resp s1 b1) (hps : s1 = 200 ∨ s1 = 204)
    (hs : orc.statusResp = .resp s2 b2) :
    ((apiRegistrationUpdate cfg sess orc pl).1 = .okResult ↔
      (s2 = 200 ∨ s2 = 204)) ∧
    (¬(s2 = 200 ∨ s2 = 204) →
      (apiRegistrationUpdate cfg sess orc pl).1 = .validationFailed s2 b2) ∧
    (pyStrip pl.reason ≠ "" →
      (((apiRegistrationConfirm cfg sess orc pl).1 = .okResult ↔
          (s2 = 200 ∨ s2 = 202 ∨ s2 = 204)) ∧
        (¬(s2 = 200 ∨ s2 = 202 ∨ s2 = 204) →
          (apiRegistrationConfirm cfg sess orc pl).1 = .validationFailed s2 b2))) := by
  have hmem' : ¬ n ∉ sess.programIds := fun hc => hc hmem
  have hps' : ¬(s1 ≠ 200 ∧ s1 ≠ 204) := by
    rcases hps with h | h <;> simp [h]
  constructor
  · by_cases hc : s2 = 200 ∨ s2 = 204
    · have hc' : ¬(s2 ≠ 200 ∧ s2 ≠ 204) := by
        rcases hc with h | h <;> simp [h]
      simp [apiRegistrationUpdate, hpid, hn, href, hmem', hurl, htok, hp, hs,
        hps', hc', hc]
    · have hc' : s2 ≠ 200 ∧ s2 ≠ 204 := by
        constructor <;> intro h <;> exact hc (by simp [h])
      simp [apiRegistrationUpdate, hpid, hn, href, hmem', hurl, htok, hp, hs,
        hps', hc', hc]
  constructor
  · intro hc
    have hc' : s2 ≠ 200 ∧ s2 ≠ 204 := by
      constructor <;> intro h <;> exact hc (by simp [h])
    simp [apiRegistrationUpdate, hpid, hn, href, hmem', hurl, htok, hp, hs,
      hps', hc']
  · intro hr
    by_cases hu : pl.updates = []
    · by_cases hc : s2 = 200 ∨ s2 = 202 ∨ s2 = 204
      · have hc' : ¬(s2 ≠ 200 ∧ s2 ≠ 202 ∧ s2 ≠ 204) := by
          rcases hc with h | h | h <;> simp [h]
        simp [apiRegistrationConfirm, hpid, hn, href, hmem', hurl, htok, hr,
          hu, hs, hc', hc]
      · have hc' : s2 ≠ 200 ∧ s2 ≠ 202 ∧ s2 ≠ 204 := by
          refine ⟨?_, ?_, ?_⟩ <;> intro h <;> exact hc (by simp [h])
        simp [apiRegistrationConfirm, hpid, hn, href, hmem', hurl, htok, hr,
          hu, hs, hc', hc]
    · by_cases hc : s2 = 200 ∨ s2 = 202 ∨ s2 = 204
      · have hc' : ¬(s2 ≠ 200 ∧ s2 ≠ 202 ∧ s2 ≠ 204) := by
          rcases hc with h | h | h <;> simp [h]
        simp [apiRegistrationConfirm, hpid, hn, href, hmem', hurl, htok, hr,
          hu, hp, hs, hps', hc', hc]
      · have hc' : s2 ≠ 200 ∧ s2 ≠ 202 ∧ s2 ≠ 204 := by
          refine ⟨?_, ?_, ?_⟩ <;> intro h <;> exact hc (by simp [h])
        simp [apiRegistrationConfirm, hpid, hn, href, hmem', hurl, htok, hr,
          hu, hp, hs, hps', hc', hc]

/-- Witness for C4 (amended) at a concrete input, matching the spec's own
test: empty field updates with a non-empty reason skip the patch call, and a
202 on the status-transition call makes the confirm endpoint succeed. -/
theorem status_transition_codes_witness :
    (apiRegistrationConfirm ⟨"https://x", true⟩ ⟨some "t", [1]⟩
        ⟨.resp 200 "", .resp 202 ""⟩ ⟨some 1, "r", [], "ok"⟩).1 = .okResult := by
  have h := status_transition_codes ⟨"https://x", true⟩ ⟨some "t", [1]⟩
      ⟨.resp 200 "", .resp 202 ""⟩ ⟨some 1, "r", [], "ok"⟩ 1 200 "" 202 ""
      rfl (by decide) (by decide) (by decide) (by decide) (by decide)
      rfl (Or.inl rfl) rfl
  exact ((h.2.2 (by decide)).1).mpr (Or.inr (Or.inl rfl))

/-- Counterexample to claim C4 as stated: in the update endpoint an upstream
202 on the status-transition call is NOT treated as success — the workflow
returns the validation-failed result carrying status 202 (app.py line 547
checks only for 200 and 204). -/
theorem status_202_update_counterexample :
    apiRegistrationUpdate ⟨"https://x", true⟩ ⟨some "t", [1]⟩
        ⟨.resp 200 "", .resp 202 ""⟩
        ⟨some 1, "r", [("fullName", .vstr "A")], "ok"⟩ =
      (.validationFailed 202 "",
       [.fieldPatch 1 "r" [("fullName", .vstr "A")] (some "ok"),
        .statusPatch 1 "r"]) ∧
    UpdResult.validationFailed 202 "" ≠ .okResult :=
  ⟨by decide, by decide⟩

/-- Claim C5: when the field-patch call is attempted and returns a status
other than 200 or 204, the workflow stops with the patch-failed result
carrying status and body, and the status-transition call is never issued —
the trace holds exactly the one field-patch call.  This holds for the
update endpoint (which always attempts the patch) and for the confirm
endpoint (which attempts it when the update map is non-empty). -/
theorem patch_failure_stops (cfg : SysConfig) (sess : SessionCtx)
    (orc : UpdOracle) (pl : UpdPayload) (n : Int) (s1 : Nat) (b1 : String)
    (hpid : pl.programId = some n) (hn : n ≠ 0) (href : pl.referenceId ≠ "")
    (hmem : n ∈ sess.programIds) (hurl : cfg.url121 ≠ "")
    (htok : sess.token121 ≠ none)
    (hp : orc.patchResp = .resp s1 b1) (h200 : s1 ≠ 200) (h204 : s1 ≠ 204) :
    apiRegistrationUpdate cfg sess orc pl =
      (.patchFailed s1 b1,
       [.fieldPatch n pl.referenceId
          (pl.updates.filter fun kv => kv.2 ≠ .vnull)
          (if pyStrip pl.reason = "" then none else some (pyStrip pl.reason))]) ∧
    (pyStrip pl.reason ≠ "" → pl.updates ≠ [] →
      apiRegistrationConfirm cfg sess orc pl =
        (.patchFailed s1 b1,
         [.fieldPatch n pl.referenceId pl.updates (some (pyStrip pl.reason))])) := by
  have hmem' : ¬ n ∉ sess.programIds := fun hc => hc hmem
  constructor
  · simp [apiRegistrationUpdate, hpid, hn, href, hmem', hurl, htok, hp,
      h200, h204]
  · intro hr hu
    simp [apiRegistrationConfirm, hpid, hn, href, hmem', hurl, htok, hr, hu,
      hp, h200, h204]

/-- Witness for C5 at a concrete input, matching the spec's own test: the
patch call returns 500, the result is the patch failure, and the trace shows
a single call (the status-transition call was never issued). -/
theorem patch_failure_stops_witness :
    apiRegistrationUpdate ⟨"https://x", true⟩ ⟨some "t", [1]⟩
        ⟨.resp 500 "boom", .resp 200 ""⟩
        ⟨some 1, "r", [("fullName", .vstr "A")], "ok"⟩ =
      (.patchFailed 500 "boom",
       [.fieldPatch 1 "r" [("fullName", .vstr "A")] (some "ok")]) := by
  have h := (patch_failure_stops ⟨"https://x", true⟩ ⟨some "t", [1]⟩
      ⟨.resp 500 "boom", .resp 200 ""⟩
      ⟨some 1, "r", [("fullName", .vstr "A")], "ok"⟩ 1 500 "boom"
      rfl (by decide) (by decide) (by decide) (by decide) (by decide)
      rfl (by decide) (by decide)).1
  rw [h]
  decide

/-- Claim C7 (amended): the confirm endpoint rejects an empty or
whitespace-only reason with the reason-required result before issuing any
network call.  (The update endpoint does not enforce this — see the
counterexample.) -/
theorem reason_required_confirm (cfg : SysConfig) (sess : SessionCtx)
    (orc : UpdOracle) (pl : UpdPayload) (n : Int)
    (hpid : pl.programId = some n) (hn : n ≠ 0) (href : pl.referenceId ≠ "")
    (hr : pyStrip pl.reason = "") :
    apiRegistrationConfirm cfg sess orc pl = (.reasonRequired, []) := by
  simp [apiRegistrationConfirm, hpid, hn, href, hr]

/-- Witness for C7 (amended) at a concrete input: a whitespace-only reason
is rejected with zero network calls. -/
theorem reason_required_confirm_witness :
    apiRegistrationConfirm ⟨"https://x", true⟩ ⟨some "t", [1]⟩
        ⟨.resp 200 "", .resp 200 ""⟩ ⟨some 1, "r", [], "   "⟩ =
      (.reasonRequired, []) :=
  reason_required_confirm ⟨"https://x", true⟩ ⟨some "t", [1]⟩
    ⟨.resp 200 "", .resp 200 ""⟩ ⟨some 1, "r", [], "   "⟩ 1
    rfl (by decide) (by decide) (by decide)

/-- Counterexample to claim C7 as stated: the update endpoint accepts an
empty reason — it merely omits the reason field from the patch body (app.py
lines 474-475), issues both network calls and succeeds, instead of
rejecting the request with a reason-required result before any call. -/
theorem reason_not_required_update_counterexample :
    apiRegistrationUpdate ⟨"https://x", true⟩ ⟨some "t", [1]⟩
        ⟨.resp 200 "", .resp 200 ""⟩
        ⟨some 1, "r", [("fullName", .vstr "A")], ""⟩ =
      (.okResult,
       [.fieldPatch 1 "r" [("fullName", .vstr "A")] none,
        .statusPatch 1 "r"]) ∧
    UpdResult.okResult ≠ .reasonRequired :=
  ⟨by decide, by decide⟩

/-- Claim C8 (amended): in the update endpoint every null-valued field of
the update map is removed before the field-patch call is transmitted and
every non-null field is transmitted unchanged; the confirm endpoint instead
transmits the update map exactly as received (see the counterexample). -/
theorem nulls_dropped_update (cfg : SysConfig) (sess : SessionCtx)
    (orc : UpdOracle) (pl : UpdPayload) (n : Int)
    (hpid : pl.programId = some n) (hn : n ≠ 0) (href : pl.referenceId ≠ "")
    (hmem : n ∈ sess.programIds) (hurl : cfg.url121 ≠ "")
    (htok : sess.token121 ≠ none) :
    ((apiRegistrationUpdate cfg sess orc pl).2.head? =
      some (.fieldPatch n pl.referenceId
        (pl.updates.filter fun kv => kv.2 ≠ .vnull)
        (if pyStrip pl.reason = "" then none else some (pyStrip pl.reason)))) ∧
    (∀ k v, (k, v) ∈ pl.updates → v ≠ JVal.vnull →
      (k, v) ∈ pl.updates.filter fun kv => kv.2 ≠ .vnull) ∧
    (∀ k v, (k, v) ∈ (pl.updates.filter fun kv => kv.2 ≠ .vnull) →
      v ≠ JVal.vnull ∧ (k, v) ∈ pl.updates) ∧
    (pl.updates ≠ [] → pyStrip pl.reason ≠ "" →
      (apiRegistrationConfirm cfg sess orc pl).2.head? =
        some (.fieldPatch n pl.referenceId pl.updates
          (some (pyStrip pl.reason)))) := by
  have hmem' : ¬ n ∉ sess.programIds := fun hc => hc hmem
  refine ⟨?_, ?_, ?_, ?_⟩
  · simp only [apiRegistrationUpdate, hpid]
    rw [if_neg (by simp [hn, href]), if_neg hmem', if_neg (by simp [hurl, htok])]
    rcases hpr : orc.patchResp with _ | ⟨s1, b1⟩
    · rfl
    · dsimp only
      by_cases h1 : s1 ≠ 200 ∧ s1 ≠ 204
      · rw [if_pos h1]; rfl
      · rw [if_neg h1]
        rcases hsr : orc.statusResp with _ | ⟨s2, b2⟩
        · rfl
        · dsimp only
          by_cases h2 : s2 ≠ 200 ∧ s2 ≠ 204
          · rw [if_pos h2]; rfl
          · rw [if_neg h2]; rfl
  · intro k v hkv hv
    exact List.mem_filter.mpr ⟨hkv, by simpa using hv⟩
  · intro k v hkv
    have h := List.mem_filter.mp hkv
    exact ⟨by simpa using h.2, h.1⟩
  · intro hu hr
    simp only [apiRegistrationConfirm, hpid]
    rw [if_neg (by simp [hn, href]), if_neg hr, if_neg hmem',
      if_neg (by simp [hurl, htok]), if_neg hu]
    rcases hpr : orc.patchResp with _ | ⟨s1, b1⟩
    · rfl
    · dsimp only
      by_cases h1 : s1 ≠ 200 ∧ s1 ≠ 204
      · rw [if_pos h1]; rfl
      · rw [if_neg h1]
        rcases hsr : orc.statusResp with _ | ⟨s2, b2⟩
        · rfl
        · dsimp only
          by_cases h2 : s2 ≠ 200 ∧ s2 ≠ 202 ∧ s2 ≠ 204
          · rw [if_pos h2]; rfl
          · rw [if_neg h2]; rfl

/-- Witness for C8 (amended) at a concrete input: the null-valued field is
dropped from the transmitted patch body of the update endpoint and the
non-null field survives unchanged. -/
theorem nulls_dropped_update_witness :
    (apiRegistrationUpdate ⟨"https://x", true⟩ ⟨some "t", [1]⟩
        ⟨.resp 200 "", .resp 200 ""⟩
        ⟨some 1, "r", [("fullName", .vstr "A"), ("note", .vnull)], "ok"⟩).2.head? =
      some (.fieldPatch 1 "r" [("fullName", .vstr "A")] (some "ok")) := by
  have h := (nulls_dropped_update ⟨"https://x", true⟩ ⟨some "t", [1]⟩
      ⟨.resp 200 "", .resp 200 ""⟩
      ⟨some 1, "r", [("fullName", .vstr "A"), ("note", .vnull)], "ok"⟩ 1
      rfl (by decide) (by decide) (by decide) (by decide) (by decide)).1
  rw [h]
  decide

/-- Counterexample to claim C8 as stated: the confirm endpoint transmits the
update map unchanged — a null-valued field reaches the field-patch call's
body instead of being removed before transmission (app.py lines 626-631
have no null filter). -/
theorem nulls_transmitted_confirm_counterexample :
    apiRegistrationConfirm ⟨"https://x", true⟩ ⟨some "t", [1]⟩
        ⟨.resp 200 "", .resp 200 ""⟩ ⟨some 1, "r", [("note", .vnull)], "ok"⟩ =
      (.okResult,
       [.fieldPatch 1 "r" [("note", .vnull)] (some "ok"),
        .statusPatch 1 "r"]) ∧
    ("note", JVal.vnull) ∈ [("note", JVal.vnull)] :=
  ⟨by decide, by decide⟩

/-- The pagination metadata of a registrations page:
`meta.get("totalPages", 1)` and `meta.get("currentPage", page)`, with absent
keys modelled as `none`. -/
structure PageMeta where
  totalPages : Option Int
  currentPage : Option Int
deriving DecidableEq

/-- A registration record as the fetcher inspects it: its `status` field
(absent modelled as `none`; `reg.get("status", "")`), its optional
`programId`, and an opaque reference id standing for all pass-through
fields. -/
structure Reg where
  status : Option String
  programId : Option Int
  referenceId : String
deriving DecidableEq

/-- The status filter of `fetch_new_registrations_121` (app.py lines
142-144): `str(reg.get("status", "")).lower() == "new"`. -/
def regIsNew (r : Reg) : Bool :=
  (r.status.getD "").toLower == "new"

/-- What `requests.get` produced for one page of the registrations listing:
a transport exception, or a response with its HTTP status, `data` list and
`meta` object (`payload.get(...) or` defaults are folded into the model). -/
inductive PageResp
  | exn
  | resp (status : Nat) (data : List Reg) (meta : PageMeta)
deriving DecidableEq

/-- How one invocation of `fetch_new_registrations_121` ends.
`uncaughtExn` models the `requests` exception propagating out of the
function: the page loop (app.py lines 118-152) has no try/except, so a
transport-level exception crosses the function boundary unclassified.
`pageFailed` models the `RuntimeError` the function itself raises for a
non-200 page, which carries the page number and status.  `fetched` is the
normal return of the accumulated filtered records. -/
inductive FetchOutcome
  | uncaughtExn
  | pageFailed (page : Nat) (status : Nat)
  | fetched (regs : List Reg)
deriving DecidableEq

/-- The `while True` page loop of `fetch_new_registrations_121` (app.py
lines 118-152), with explicit fuel since the loop need not terminate for
adversarial metadata; `none` means the fuel ran out.  Returns the outcome
together with the list of page numbers requested, in order. -/
def fetchGo (pages : Nat → PageResp) :
    Nat → Nat → List Reg → Option FetchOutcome × List Nat
  | 0, _, _ => (none, [])
  | fuel + 1, page, acc =>
    match pages page with
    | .exn => (some .uncaughtExn, [page])
    | .resp s d m =>
      if s ≠ 200 then (some (.pageFailed page s), [page])
      else
        let acc2 := acc ++ d.filter regIsNew
        let tp := m.totalPages.getD 1
        let cp := m.currentPage.getD (page : Int)
        if cp ≥ tp then (some (.fetched acc2), [page])
        else
          let r := fetchGo pages fuel (page + 1) acc2
          (r.1, page :: r.2)

/-- Model of `fetch_new_registrations_121`: start at page 1 with an empty
accumulator. -/
def fetchNew (pages : Nat → PageResp) (fuel : Nat) :
    Option FetchOutcome × List Nat :=
  fetchGo pages fuel 1 []

theorem fetchGo_requested_ge (pages : Nat → PageResp) :
    ∀ (fuel page : Nat) (acc : List Reg) (p : Nat),
      p ∈ (fetchGo pages fuel page acc).2 → page ≤ p := by
  intro fuel
  induction fuel with
  | zero =>
    intro page acc p hmem
    simp [fetchGo] at hmem
  | succ fuel ih =>
    intro page acc p hmem
    simp only [fetchGo] at hmem
    revert hmem
    cases hpp : pages page with
    | exn =>
      intro hmem
      simp at hmem
      omega
    | resp s0 d0 m0 =>
      intro hmem
      dsimp only at hmem
      by_cases h1 : s0 ≠ 200
      · rw [if_pos h1] at hmem
        simp at hmem
        omega
      · rw [if_neg h1] at hmem
        by_cases h2 : m0.currentPage.getD (page : Int) ≥ m0.totalPages.getD 1
        · rw [if_pos h2] at hmem
          simp at hmem
          omega
        · rw [if_neg h2] at hmem
          dsimp only at hmem
          rcases List.mem_cons.mp hmem with rfl | hmem
          · exact Nat.le_refl _
          · have := ih (page + 1) (acc ++ d0.filter regIsNew) p hmem
            omega

theorem fetchGo_fail (pages : Nat → PageResp) :
    ∀ (fuel page : Nat) (acc : List Reg) (p s : Nat) (d : List Reg)
      (m : PageMeta),
      p ∈ (fetchGo pages fuel page acc).2 → pages p = .resp s d m →
      s ≠ 200 →
      (fetchGo pages fuel page acc).1 = some (.pageFailed p s) := by
  intro fuel
  induction fuel with
  | zero =>
    intro page acc p s d m hmem _ _
    simp [fetchGo] at hmem
  | succ fuel ih =>
    intro page acc p s d m hmem hp hs
    simp only [fetchGo] at hmem ⊢
    revert hmem
    cases hpp : pages page with
    | exn =>
      intro hmem
      simp at hmem
      subst hmem
      rw [hpp] at hp
      cases hp
    | resp s0 d0 m0 =>
      intro hmem
      dsimp only at hmem ⊢
      by_cases h1 : s0 ≠ 200
      · rw [if_pos h1] at hmem ⊢
        simp at hmem
        subst hmem
        rw [hpp] at hp
        injection hp with h1' h2' h3'
        rw [h1']
      · rw [if_neg h1] at hmem ⊢
        by_cases h2 : m0.currentPage.getD (page : Int) ≥ m0.totalPages.getD 1
        · rw [if_pos h2] at hmem
          simp at hmem
          subst hmem
          rw [hpp] at hp
          injection hp with h1' h2' h3'
          exact absurd (h1'.symm.trans (by simpa using h1)) hs
        · rw [if_neg h2] at hmem ⊢
          dsimp only at hmem ⊢
          rcases List.mem_cons.mp hmem with rfl | hmem
          · rw [hpp] at hp
            injection hp with h1' h2' h3'
            exact absurd (h1'.symm.trans (by simpa using h1)) hs
          · exact ih (page + 1) (acc ++ d0.filter regIsNew) p s d m hmem hp hs

/-- Claim C6: if any page the fetcher actually requests comes back with a
non-200 status, the whole fetch ends with the page-failed error carrying
that page number and status — in particular the outcome is not a `fetched`
result, so matches accumulated from earlier successful pages are never
returned as a truncated success. -/
theorem fetch_page_failure_aborts (pages : Nat → PageResp) (fuel p s : Nat)
    (d : List Reg) (m : PageMeta)
    (hreq : p ∈ (fetchNew pages fuel).2) (hp : pages p = .resp s d m)
    (hs : s ≠ 200) :
    (fetchNew pages fuel).1 = some (.pageFailed p s) ∧
    ∀ l : List Reg, (fetchNew pages fuel).1 ≠ some (.fetched l) := by
  have h : (fetchNew pages fuel).1 = some (.pageFailed p s) :=
    fetchGo_fail pages fuel 1 [] p s d m hreq hp hs
  refine ⟨h, ?_⟩
  intro l hc
  rw [h] at hc
  cases hc

/-- Witness for C6 at a concrete input, matching the spec's own test: page 1
succeeds with records (one of them pending), page 2 of 3 returns 500, and
the fetch fails with the page-2 failure instead of returning page 1's
match. -/
theorem fetch_page_failure_aborts_witness :
    (fetchNew (fun p =>
        if p = 1 then
          .resp 200 [⟨some "new", none, "r1"⟩, ⟨some "validated", none, "r2"⟩]
            ⟨some 3, some 1⟩
        else if p = 2 then .resp 500 [] ⟨some 3, some 2⟩
        else .resp 200 [] ⟨some 3, some 3⟩) 10).1 =
      some (.pageFailed 2 500) :=
  (fetch_page_failure_aborts (fun p =>
      if p = 1 then
        .resp 200 [⟨some "new", none, "r1"⟩, ⟨some "validated", none, "r2"⟩]
          ⟨some 3, some 1⟩
      else if p = 2 then .resp 500 [] ⟨some 3, some 2⟩
      else .resp 200 [] ⟨some 3, some 3⟩) 10 2 500 [] ⟨some 3, some 2⟩
    (by decide) (by decide) (by decide)).1

theorem fetchGo_exn (pages : Nat → PageResp) :
    ∀ (fuel page : Nat) (acc : List Reg) (p : Nat),
      p ∈ (fetchGo pages fuel page acc).2 → pages p = .exn →
      (fetchGo pages fuel page acc).1 = some .uncaughtExn := by
  intro fuel
  induction fuel with
  | zero =>
    intro page acc p hmem _
    simp [fetchGo] at hmem
  | succ fuel ih =>
    intro page acc p hmem hp
    simp only [fetchGo] at hmem ⊢
    revert hmem
    cases hpp : pages page with
    | exn =>
      intro _
      rfl
    | resp s0 d0 m0 =>
      intro hmem
      dsimp only at hmem ⊢
      by_cases h1 : s0 ≠ 200
      · rw [if_pos h1] at hmem
        simp at hmem
        subst hmem
        rw [hpp] at hp
        cases hp
      · rw [if_neg h1] at hmem ⊢
        by_cases h2 : m0.currentPage.getD (page : Int) ≥ m0.totalPages.getD 1
        · rw [if_pos h2] at hmem
          simp at hmem
          subst hmem
          rw [hpp] at hp
          cases hp
        · rw [if_neg h2] at hmem ⊢
          dsimp only at hmem ⊢
          rcases List.mem_cons.mp hmem with rfl | hmem
          · rw [hpp] at hp
            cases hp
          · exact ih (page + 1) (acc ++ d0.filter regIsNew) p hmem hp

/-- The distinct JSON results of the `/api/registrations` route
(`api_registrations`, app.py lines 234-274), which wraps the fetcher in a
catch-everything handler returning a generic 502. -/
inductive RegsResult
  | missingProgramId
  | notAllowed
  | fetchFailed
  | regsOk (regs : List Reg)
deriving DecidableEq

/-- Model of `api_registrations` (app.py lines 234-274): validates the `program_id`
query argument (absent, unparseable — already `none` from the typed arg
getter — or 0 are all falsy), checks program membership, then calls the
fetcher; ANY exception escaping the fetcher (the raw transport exception or
the page-failure RuntimeError) is caught and mapped to the generic
fetch-failed 502 result.  On success each record's `programId` is
backfilled with the requested program when absent.  `none` means the
fetcher's loop exceeded the fuel. -/
def apiRegistrations (sess : SessionCtx) (pages : Nat → PageResp)
    (fuel : Nat) (programIdArg : Option Int) : Option RegsResult :=
  match programIdArg with
  | none => some .missingProgramId
  | some n =>
    if n = 0 then some .missingProgramId
    else if n ∉ sess.programIds then some .notAllowed
    else
      match (fetchNew pages fuel).1 with
      | none => none
      | some (.fetched regs) =>
        some (.regsOk (regs.map
          (fun r => { r with programId := some (r.programId.getD n) })))
      | some _ => some .fetchFailed

/-- Claim C9 (amended): `login_121` and both update endpoints catch
transport-level exceptions and convert them to classified outcomes, but
`fetch_new_registrations_121` does NOT — a transport exception on any
requested page crosses the fetcher's boundary uncaught, and it is only the
`api_registrations` route handler that converts it (generically) to a
fetch-failed 502. -/
theorem transport_exception_handling :
    (∀ baseUrl : String, baseUrl ≠ "" →
      login121 baseUrl .exn = (none, [], some .unreachable)) ∧
    (∀ (cfg : SysConfig) (sess : SessionCtx) (orc : UpdOracle)
      (pl : UpdPayload) (n : Int),
      pl.programId = some n → n ≠ 0 → pl.referenceId ≠ "" →
      n ∈ sess.programIds → cfg.url121 ≠ "" → sess.token121 ≠ none →
      orc.patchResp = .exn →
      (apiRegistrationUpdate cfg sess orc pl).1 = .patchUnreachable ∧
      (pyStrip pl.reason ≠ "" → pl.updates ≠ [] →
        (apiRegistrationConfirm cfg sess orc pl).1 = .patchUnreachable)) ∧
    (∀ (pages : Nat → PageResp) (fuel p : Nat),
      p ∈ (fetchNew pages fuel).2 → pages p = .exn →
      (fetchNew pages fuel).1 = some .uncaughtExn) ∧
    (∀ (sess : SessionCtx) (pages : Nat → PageResp) (fuel : Nat) (n : Int),
      n ≠ 0 → n ∈ sess.programIds →
      (fetchNew pages fuel).1 = some .uncaughtExn →
      apiRegistrations sess pages fuel (some n) = some .fetchFailed) := by
  refine ⟨?_, ?_, ?_, ?_⟩
  · intro baseUrl hb
    simp [login121, hb]
  · intro cfg sess orc pl n hpid hn href hmem hurl htok hp
    have hmem' : ¬ n ∉ sess.programIds := fun hc => hc hmem
    constructor
    · simp [apiRegistrationUpdate, hpid, hn, href, hmem', hurl, htok, hp]
    · intro hr hu
      simp [apiRegistrationConfirm, hpid, hn, href, hmem', hurl, htok, hr,
        hu, hp]
  · intro pages fuel p hmem hp
    exact fetchGo_exn pages fuel 1 [] p hmem hp
  · intro sess pages fuel n hn hmem hout
    have hmem' : ¬ n ∉ sess.programIds := fun hc => hc hmem
    simp [apiRegistrations, hn, hmem', hout]

/-- Witness for C9 (amended) at concrete inputs: the login call classifies
the exception as unreachable; the fetcher run ends in the uncaught
exception; the route handler maps that to the generic fetch-failed 502. -/
theorem transport_exception_handling_witness :
    login121 "https://x" .exn = (none, [], some .unreachable) ∧
    (fetchNew (fun _ => .exn) 3).1 = some .uncaughtExn ∧
    apiRegistrations ⟨some "t", [1]⟩ (fun _ => .exn) 3 (some 1) =
      some .fetchFailed := by
  have h := transport_exception_handling
  refine ⟨h.1 "https://x" (by decide), ?_, ?_⟩
  · exact h.2.2.1 (fun _ => .exn) 3 1 (by decide) rfl
  · exact h.2.2.2 ⟨some "t", [1]⟩ (fun _ => .exn) 3 1 (by decide) (by decide)
      (h.2.2.1 (fun _ => .exn) 3 1 (by decide) rfl)

/-- Counterexample to claim C9 as stated: the fetcher has no try/except
around its page request (app.py lines 126-132), so at this concrete input —
a transport exception on page 1 — the fetch operation's outcome is the raw
uncaught exception crossing its boundary, not a classified fetch error. -/
theorem fetch_exception_uncaught_counterexample :
    (fetchNew (fun _ => PageResp.exn) 1).1 = some FetchOutcome.uncaughtExn ∧
    FetchOutcome.uncaughtExn ≠ FetchOutcome.pageFailed 1 500 :=
  ⟨by decide, by decide⟩
